import Mathlib

/-!
Verification development for the survival-shooter core in `survive.py`.

The Python source is shallowly embedded: pygame integer rectangles become
`Rect` over `Int`, seconds become `ℚ`, pygame's float-to-int coordinate
truncation becomes `ratTrunc`, and sprite-group membership becomes an
`alive : Bool` flag (pygame `Sprite.kill` removes the sprite from all
groups).  Images are opaque and represented by `Nat` identifiers.
-/

namespace Survive

/-- Truncation toward zero, the conversion pygame applies when float
coordinates are handed to integer `Rect` operations (C `int` cast). -/
def ratTrunc (q : ℚ) : Int := if 0 ≤ q then ⌊q⌋ else ⌈q⌉

/-- pygame `Rect`: integer top-left corner and size. -/
structure Rect where
  x : Int
  y : Int
  w : Int
  h : Int
deriving DecidableEq, Repr

/-- Embeds `rect.centerx` (pygame computes `x + w / 2` with C integer division;
all widths in the program are nonnegative). -/
def Rect.centerx (r : Rect) : Int := r.x + r.w / 2

/-- Embeds `rect.centery`. -/
def Rect.centery (r : Rect) : Int := r.y + r.h / 2

/-- Embeds `rect.center`. -/
def Rect.center (r : Rect) : Int × Int := (r.centerx, r.centery)

/-- Embeds `rect.midbottom`. -/
def Rect.midbottom (r : Rect) : Int × Int := (r.centerx, r.y + r.h)

/-- Embeds `rect.center = pos` (pygame sets `x = cx - w / 2`, `y = cy - h / 2`). -/
def Rect.setCenter (r : Rect) (pos : Int × Int) : Rect :=
  { r with x := pos.1 - r.w / 2, y := pos.2 - r.h / 2 }

/-- Embeds `rect.move_ip(dx, dy)`: float offsets are truncated toward zero. -/
def Rect.moveIp (r : Rect) (dx dy : ℚ) : Rect :=
  { r with x := r.x + ratTrunc dx, y := r.y + ratTrunc dy }

/-- pygame's axis-aligned overlap test (`colliderect`), used by
`pg.sprite.spritecollide` and `pg.sprite.groupcollide`. -/
def collideRect (a b : Rect) : Bool :=
  a.x < b.x + b.w && a.y < b.y + b.h && b.x < a.x + a.w && b.y < a.y + a.h

/-- Squared center distance of `calc_norm` (src lines 160-168).  The source
returns `sqrt` of this value; every comparison in the program is against
the constant 50, so the squared form compared against 2500 is used, justified
by `calc_norm_lt_50_iff` below. -/
def calcNormSq (org dst : Rect) : Int :=
  (dst.centerx - org.centerx) ^ 2 + (dst.centery - org.centery) ^ 2

/-- Squared norm of the difference vector inside `calc_orientation`
(src lines 148-157): the source divides by the square root of this value,
so the value 0 is exactly the `ZeroDivisionError` case. -/
def orientationNormSq (org dst : ℚ × ℚ) : ℚ :=
  (dst.1 - org.1) ^ 2 + (dst.2 - org.2) ^ 2

/-- Which concrete subclass a `Character` instance belongs to; the source
dispatches on it via overridden methods (`kill`, `damaged`) and via
`issubclass(type(t), Enemy_Base)`. -/
inductive CharKind
  | player
  | enemy
  | boss
deriving DecidableEq, Repr

/-- Entry of the `Character._imgs` dict: a priority key mapped to an image
and an optional remaining display duration (`None` = unlimited). -/
structure ImgEntry where
  priority : Int
  img : Nat
  valid_time : Option ℚ
deriving DecidableEq, Repr

/-- Embeds `max(self._imgs)`: the largest priority key of the layer dict,
`none` when the dict is empty. -/
def topPriority (l : List ImgEntry) : Option Int :=
  l.foldl (fun acc e =>
    match acc with
    | none => some e.priority
    | some p => some (max p e.priority)) none

/-- Embeds `self._imgs[p]`: dict lookup by priority key. -/
def lookupImg (l : List ImgEntry) (p : Int) : Option ImgEntry :=
  l.find? (fun e => e.priority == p)

/-- Embeds `self._imgs[priority] = [image, valid_time]`: overwrite the entry at an
existing key, or insert a fresh one. -/
def setImg (l : List ImgEntry) (priority : Int) (img : Nat) (vt : Option ℚ) :
    List ImgEntry :=
  if l.any (fun e => e.priority == priority) then
    l.map (fun e => if e.priority == priority then ⟨priority, img, vt⟩ else e)
  else
    l ++ [⟨priority, img, vt⟩]

/-- State of `Character` (src lines 81-145) and its subclasses.  `alive`
models membership in the sprite groups (`Sprite.kill` removes the sprite
from every group); `score` is `Enemy_Base._score` (0 for the player);
`image` is the currently displayed `self.image`. -/
structure Character where
  kind : CharKind
  hp : Int
  max_invincible_tick : ℚ
  invincible_tmr : ℚ
  imgs : List ImgEntry
  image : Nat
  rect : Rect
  alive : Bool
  score : Int
deriving DecidableEq, Repr

/-- Embeds `Character.set_image` (src lines 102-109). -/
def Character.set_image (c : Character) (image : Nat) (priority : Int)
    (valid_time : Option ℚ) : Character :=
  { c with imgs := setImg c.imgs priority image valid_time }

/-- Embeds `Sprite.kill`, overridden by `Player.kill` to a no-op (src line 253). -/
def Character.kill (c : Character) : Character :=
  match c.kind with
  | CharKind.player => c
  | _ => { c with alive := false }

/-- The `damaged` hook: `Player.damaged` performs `change_img(8, 5, 2)`
(src lines 221-228, the hurt image is `8.png`); the base hook is a no-op. -/
def Character.damaged (c : Character) : Character :=
  match c.kind with
  | CharKind.player => c.set_image 8 5 (some 2)
  | _ => c

/-- Embeds `Character.give_damage` (src lines 111-123): applies damage only when
`invincible_tmr <= 0`, then resets the invincibility timer, runs the
`damaged` hook, and kills the character when `hp <= 0`.  (The source also
returns the remaining hp, recoverable as `.hp` of the result.) -/
def Character.give_damage (c : Character) (damage : Int) : Character :=
  let c1 := if c.invincible_tmr ≤ 0 then
    Character.damaged
      { c with hp := c.hp - damage, invincible_tmr := c.max_invincible_tick }
  else c
  if c1.hp ≤ 0 then c1.kill else c1

/-- Embeds `Character.update` (src lines 131-145): decrement the invincibility
timer floored at -1; then, if the layer dict is nonempty, display the
highest-priority layer and handle only that layer's duration: delete the
layer if its duration is already negative (and return), otherwise
decrement it by `delta_time`. -/
def Character.update (c : Character) (delta_time : ℚ) : Character :=
  let c1 : Character :=
    { c with invincible_tmr := max (c.invincible_tmr - delta_time) (-1) }
  match topPriority c1.imgs with
  | none => c1
  | some idx =>
    match lookupImg c1.imgs idx with
    | none => c1
    | some entry =>
      let c2 : Character := { c1 with image := entry.img }
      match entry.valid_time with
      | none => c2
      | some t =>
        if t < 0 then
          { c2 with imgs := c2.imgs.filter (fun e => !(e.priority == idx)) }
        else
          { c2 with imgs := c2.imgs.map (fun e =>
              if e.priority == idx then { e with valid_time := some (t - delta_time) }
              else e) }

/-- Embeds `issubclass(type(t), Enemy_Base)` (src line 300). -/
def isEnemyBase : CharKind → Bool
  | CharKind.player => false
  | _ => true

/-- State of `Bullet` (src lines 257-301).  `alive` models group
membership; the target group is passed to `Bullet.update` as the list of
its members at call time. -/
structure Bullet where
  vx : ℚ
  vy : ℚ
  rect : Rect
  speed : ℚ
  life_tmr : ℚ
  damage : Int
  max_life_sec : ℚ
  alive : Bool
deriving DecidableEq, Repr

/-- Embeds `Bullet.__init__` (src lines 262-281) in the fixed-rotation case
(`is_fix_rotation_img=True`, or rotation angle 0, where `rotozoom` leaves
the image size unchanged): the rect is the image rect of size
`imgW × imgH` centered at `position`; `life_tmr` starts at 0. -/
def mkBullet (imgW imgH : Int) (position : Int × Int) (direction : ℚ × ℚ)
    (speed : ℚ) (damage : Int) (life_sec : ℚ) : Bullet :=
  { vx := direction.1, vy := direction.2
    rect := Rect.setCenter { x := 0, y := 0, w := imgW, h := imgH } position
    speed := speed, life_tmr := 0, damage := damage
    max_life_sec := life_sec, alive := true }

/-- The rect of the bullet after this tick's movement
(`self.rect.move_ip(self.speed * self.vx * dtime, ...)`, src line 288). -/
def Bullet.movedRect (b : Bullet) (dtime : ℚ) : Rect :=
  b.rect.moveIp (b.speed * b.vx * dtime) (b.speed * b.vy * dtime)

/-- The collision loop of `Bullet.update` (src lines 294-301):
`pg.sprite.spritecollide` computes the list of group members overlapping
the bullet once, and the loop then damages each of them in order (it also
calls `self.kill()` for each, an idempotent group removal).  The score is
raised by `t.get_score()` whenever the damaged target ends with
`hp <= 0` and is an `Enemy_Base`.  Returns the updated group members in
order together with the updated score. -/
def applyHits (br : Rect) (dmg : Int) :
    List Character → Int → List Character × Int
  | [], s => ([], s)
  | t :: ts, s =>
    if t.alive && collideRect br t.rect then
      let t1 := t.give_damage dmg
      let s1 := if t1.hp ≤ 0 ∧ isEnemyBase t1.kind = true then s + t1.score else s
      let rest := applyHits br dmg ts s1
      (t1 :: rest.1, rest.2)
    else
      let rest := applyHits br dmg ts s
      (t :: rest.1, rest.2)

/-- Embeds `Bullet.update` (src lines 283-301): move the rect, kill the bullet if
its age already exceeds the lifespan, then increment the age, then run the
collision pass against the target group (and kill the bullet on any hit).
Returns the updated bullet, the updated target-group members, and the
updated score. -/
def Bullet.update (b : Bullet) (dtime : ℚ) (targets : List Character)
    (score : Int) : Bullet × List Character × Int :=
  let br := b.movedRect dtime
  let b1 := { b with rect := br }
  let b2 := if b1.life_tmr > b1.max_life_sec then { b1 with alive := false } else b1
  let b3 := { b2 with life_tmr := b2.life_tmr + dtime }
  let b4 := if targets.any (fun t => t.alive && collideRect br t.rect) then
    { b3 with alive := false } else b3
  let res := applyHits br b.damage targets score
  (b4, res.1, res.2)

/-- Iterated `Bullet.update` against an empty target group (a bullet that
never collides), used for the lifespan scenarios. -/
def bulletTicks (b : Bullet) (dtime : ℚ) : Nat → Bullet
  | 0 => b
  | n + 1 => bulletTicks ((b.update dtime [] 0).1) dtime n

/-- The boss-vs-player-bullet pass of the main loop (src lines 543-547):
`for b in pg.sprite.groupcollide(boss, bullets, False, True): b.give_damage(10);
if b.hp <= 0: score.score_up(40)`.  The argument is the list of boss-group
members that collided with at least one player bullet this frame. -/
def bossCollisionPass : List Character → Int → List Character × Int
  | [], s => ([], s)
  | b :: bs, s =>
    let b1 := b.give_damage 10
    let s1 := if b1.hp ≤ 0 then s + 40 else s
    let rest := bossCollisionPass bs s1
    (b1 :: rest.1, rest.2)

/-- The game phases of the main loop. -/
inductive Phase
  | Playing
  | GameOver
  | GameClear
deriving DecidableEq, Repr

/-- The phase decision of one frame of `main` (src lines 553-592), with
the checks in source order: game over when `player.hp <= 0` (the branch
returns from `main`); otherwise `gameFlag` is set when
`int(suvivetime) >= 60` (Python `int()` truncates toward zero); game clear
when the flag is set (the branch returns from `main`); otherwise the frame
continues into the per-group simulation updates.  The second component
records whether those simulation updates run this frame. -/
def phaseStep (hp : Int) (suvivetime : ℚ) (gameFlag : Bool) : Phase × Bool :=
  if hp ≤ 0 then (Phase.GameOver, false)
  else
    let flag := if 60 ≤ ratTrunc suvivetime then true else gameFlag
    if flag then (Phase.GameClear, false) else (Phase.Playing, true)

/-- Embeds `Camera` (src lines 34-45): a world-space center and the display
surface sizes (`screen.get_width()` and `screen.get_height()`). -/
structure Camera where
  center_x : ℚ
  center_y : ℚ
  screen_w : Int
  screen_h : Int
deriving DecidableEq, Repr

/-- Embeds `Group_support_camera.draw` (src lines 56-78) as it acts on the member
rects: shift every rect by `(-center + screen_size / 2)`, draw (which does
not change any rect), then shift every rect back by `(center -
screen_size / 2)`.  Python's `/` is exact division, so the offsets are
rationals truncated by `move_ip`. -/
def Group_support_camera.draw (cam : Camera) (rects : List Rect) : List Rect :=
  let shifted := rects.map (fun r =>
    r.moveIp (-cam.center_x + (cam.screen_w : ℚ) / 2)
             (-cam.center_y + (cam.screen_h : ℚ) / 2))
  shifted.map (fun r =>
    r.moveIp (cam.center_x - (cam.screen_w : ℚ) / 2)
             (cam.center_y - (cam.screen_h : ℚ) / 2))

/-- State of `BOSS` (src lines 358-393) beyond its `Character` part:
speed, the attack-interval timer, and the (opaque) flame bullet image with
its size. -/
structure BOSS where
  ch : Character
  speed : ℚ
  attack_interval_tmr : ℚ
  bullet_img_w : Int
  bullet_img_h : Int
deriving DecidableEq, Repr

/-- Embeds `BOSS.update` (src lines 376-393).  `calc_orientation` returns a unit
vector whose components are irrational in general; it is passed in as the
oracle `orient` (every theorem below quantifies over it).  The distance
guard `calc_norm(...) < 50` becomes `calcNormSq ... < 2500`
(see `calc_norm_lt_50_iff`); when it fires the method returns right after
`super().update`, skipping movement, shooting and the timer increment.
The shot is a fixed-rotation `Bullet` spawned at the moved rect's
midbottom with the default speed 500, damage 10 and lifespan 5. -/
def BOSS.update (orient : (Int × Int) → (Int × Int) → ℚ × ℚ) (boss : BOSS)
    (attack_target : Character) (enemy_bullet_group : List Bullet)
    (delta_time : ℚ) : BOSS × List Bullet :=
  let ch := boss.ch.update delta_time
  if calcNormSq ch.rect attack_target.rect < 2500 then
    ({ boss with ch := ch }, enemy_bullet_group)
  else
    let dir := orient ch.rect.center attack_target.rect.center
    let r2 := ch.rect.moveIp (dir.1 * boss.speed * delta_time)
      (dir.2 * boss.speed * delta_time)
    let ch2 := { ch with rect := r2 }
    if boss.attack_interval_tmr > 1 then
      let d2 := orient ch2.rect.midbottom attack_target.rect.center
      let boss2 := { boss with ch := ch2, attack_interval_tmr := 0 + delta_time }
      let shot := mkBullet boss.bullet_img_w boss.bullet_img_h ch2.rect.midbottom d2 500 10 5
      (boss2, enemy_bullet_group ++ [shot])
    else
      let boss2 := { boss with ch := ch2, attack_interval_tmr := boss.attack_interval_tmr + delta_time }
      (boss2, enemy_bullet_group)

/-- Embeds `Enemy.update` (src lines 346-355): tick the base character, stop when
closer than 50 units to the target (the division-by-zero guard), otherwise
move toward it at `speed`; `orient` is the `calc_orientation` oracle. -/
def Enemy.update (orient : (Int × Int) → (Int × Int) → ℚ × ℚ) (e : Character)
    (speed : ℚ) (attack_target : Character) (dtime : ℚ) : Character :=
  let ch := e.update dtime
  if calcNormSq ch.rect attack_target.rect < 2500 then ch
  else
    let dir := orient ch.rect.center attack_target.rect.center
    { ch with rect := ch.rect.moveIp (dir.1 * speed * dtime) (dir.2 * speed * dtime) }

/-- The world-space aim point of the player's bullet computed in `main`
(src lines 600-606): the pointer position has half the 1600 × 900 screen
size subtracted, then the camera center added; the camera center was set
to the player's rect center just before (src lines 597-598). -/
def aimDst (mouse_pos : Int × Int) (camera_center : Int × Int) : ℚ × ℚ :=
  ((mouse_pos.1 : ℚ) - 1600 / 2 + camera_center.1,
   (mouse_pos.2 : ℚ) - 900 / 2 + camera_center.2)

/-- The targets of one bullet collision pass whose hp is driven to ≤ 0:
alive, overlapping the moved bullet, score-bearing (`Enemy_Base`), and left
at hp ≤ 0 by `give_damage`.  These are exactly the targets for which
src line 301 raises the score. -/
def crossedTargets (br : Rect) (dmg : Int) (ts : List Character) :
    List Character :=
  ts.filter (fun t => t.alive && collideRect br t.rect && isEnemyBase t.kind
    && decide ((t.give_damage dmg).hp ≤ 0))

/-- The scenario projectile of the spec: spawned from the player's 20 × 10
bullet image centered at (0, 0) with unit direction (1, 0) (rotation angle 0
leaves the image size unchanged), speed 500, and the constructor defaults
damage 10 and lifespan 5 s. -/
def spawnBullet : Bullet := mkBullet 20 10 (0, 0) (1, 0) 500 10 5

/-- A player bullet used in concrete runs, identical to `spawnBullet`. -/
def cxBullet : Bullet := mkBullet 20 10 (0, 0) (1, 0) 500 10 5

/-- A default enemy (hp 20, no invincibility, score 30, a 100 × 100 zombie
image) centered at (50, 0). -/
def cxEnemyA : Character :=
  { kind := CharKind.enemy, hp := 20, max_invincible_tick := 0,
    invincible_tmr := -1, imgs := [⟨0, 1, none⟩], image := 1,
    rect := Rect.setCenter ⟨0, 0, 100, 100⟩ (50, 0), alive := true, score := 30 }

/-- A second default enemy centered at (60, 0), overlapping `cxEnemyA`. -/
def cxEnemyB : Character :=
  { kind := CharKind.enemy, hp := 20, max_invincible_tick := 0,
    invincible_tmr := -1, imgs := [⟨0, 1, none⟩], image := 1,
    rect := Rect.setCenter ⟨0, 0, 100, 100⟩ (60, 0), alive := true, score := 30 }

/-- A character carrying two finite-duration image layers. -/
def cxChar : Character :=
  { kind := CharKind.player, hp := 50, max_invincible_tick := 2,
    invincible_tmr := -1, imgs := [⟨0, 1, some 5⟩, ⟨1, 2, some 5⟩], image := 1,
    rect := ⟨0, 0, 10, 10⟩, alive := true, score := 0 }

/-- A character whose single image layer has exactly 0 s remaining. -/
def cxChar0 : Character :=
  { kind := CharKind.player, hp := 50, max_invincible_tick := 2,
    invincible_tmr := -1, imgs := [⟨0, 1, some 0⟩], image := 1,
    rect := ⟨0, 0, 10, 10⟩, alive := true, score := 0 }

/-- A fresh player: hp 50, 2 s invincibility window, vulnerable. -/
def wPlayer : Character :=
  { kind := CharKind.player, hp := 50, max_invincible_tick := 2,
    invincible_tmr := -1, imgs := [⟨0, 3, none⟩], image := 3,
    rect := ⟨-30, -30, 60, 60⟩, alive := true, score := 0 }

/-- A bullet whose age 5.1 s already exceeds its 5 s lifespan. -/
def wExpiredBullet : Bullet :=
  { vx := 1, vy := 0, rect := ⟨-10, -5, 20, 10⟩, speed := 500,
    life_tmr := 51/10, damage := 10, max_life_sec := 5, alive := true }

/-- An enemy at hp 5 whose rect overlaps the moved `wExpiredBullet`. -/
def wDyingEnemy : Character :=
  { kind := CharKind.enemy, hp := 5, max_invincible_tick := 0,
    invincible_tmr := -1, imgs := [⟨0, 2, none⟩], image := 2,
    rect := ⟨0, -50, 100, 100⟩, alive := true, score := 30 }

/-- An enemy at hp 10 overlapping the origin, killed by one 10-damage hit. -/
def wCrossEnemy : Character :=
  { kind := CharKind.enemy, hp := 10, max_invincible_tick := 0,
    invincible_tmr := -1, imgs := [⟨0, 2, none⟩], image := 2,
    rect := ⟨-50, -50, 100, 100⟩, alive := true, score := 30 }

/-- A boss at hp 10 (killed by one 10-damage hit), score value 40. -/
def wHitBoss : Character :=
  { kind := CharKind.boss, hp := 10, max_invincible_tick := 0,
    invincible_tmr := -1, imgs := [⟨0, 4, none⟩], image := 4,
    rect := ⟨-50, -50, 100, 100⟩, alive := true, score := 40 }

/-- A concrete orientation oracle. -/
def wOrient : (Int × Int) → (Int × Int) → ℚ × ℚ := fun _ _ => (1, 0)

/-- A boss character co-located with the player (distance 0 < 50). -/
def wBossCh : Character :=
  { kind := CharKind.boss, hp := 50, max_invincible_tick := 0,
    invincible_tmr := -1, imgs := [⟨0, 4, none⟩], image := 4,
    rect := ⟨-50, -50, 100, 100⟩, alive := true, score := 40 }

/-- The boss built on `wBossCh` with a warm attack timer. -/
def wBoss : BOSS :=
  { ch := wBossCh, speed := 100, attack_interval_tmr := 3/2,
    bullet_img_w := 10, bullet_img_h := 10 }

/-! Component lemmas about the embedded methods, shared by the claim
theorems below. -/

theorem ratTrunc_neg (q : ℚ) : ratTrunc (-q) = -ratTrunc q := by
  unfold ratTrunc
  rcases lt_trichotomy q 0 with h | h | h
  · rw [if_neg (not_le.mpr h), if_pos (by linarith), Int.floor_neg]
  · simp [h]
  · rw [if_pos h.le, if_neg (by simpa using h), Int.ceil_neg]

theorem ratTrunc_ge_60_iff (q : ℚ) : 60 ≤ ratTrunc q ↔ (60 : ℚ) ≤ q := by
  unfold ratTrunc
  by_cases h : 0 ≤ q
  · rw [if_pos h, Int.le_floor]; norm_num
  · rw [if_neg h]
    constructor
    · intro hc
      exfalso
      have : (⌈q⌉ : ℚ) < 60 := by
        calc (⌈q⌉ : ℚ) < q + 1 := Int.ceil_lt_add_one q
        _ < 60 := by push_neg at h; linarith
      have : (⌈q⌉ : ℚ) ≥ 60 := by exact_mod_cast hc
      linarith
    · intro hc; exfalso; push_neg at h; linarith

theorem calcNormSq_nonneg (org dst : Rect) : 0 ≤ calcNormSq org dst := by
  unfold calcNormSq
  positivity

/-- Bridge between the source's `calc_norm(org, dst) < 50` test and the
embedded `calcNormSq org dst < 2500`. -/
theorem calc_norm_lt_50_iff (org dst : Rect) :
    Real.sqrt ((calcNormSq org dst : ℝ)) < 50 ↔ calcNormSq org dst < 2500 := by
  have hn : (0 : ℝ) ≤ (calcNormSq org dst : ℝ) := by
    exact_mod_cast calcNormSq_nonneg org dst
  rw [show (50 : ℝ) = Real.sqrt 2500 by
    rw [show (2500 : ℝ) = 50 ^ 2 by norm_num, Real.sqrt_sq (by norm_num)]]
  rw [Real.sqrt_lt_sqrt_iff hn]
  exact_mod_cast Iff.rfl

theorem Character.kill_hp (c : Character) : c.kill.hp = c.hp := by
  obtain ⟨k, h1, h2, h3, h4, h5, h6, h7, h8⟩ := c
  unfold Character.kill; cases k <;> rfl

theorem Character.kill_invincible (c : Character) :
    c.kill.invincible_tmr = c.invincible_tmr := by
  obtain ⟨k, h1, h2, h3, h4, h5, h6, h7, h8⟩ := c
  unfold Character.kill; cases k <;> rfl

theorem Character.kill_score (c : Character) : c.kill.score = c.score := by
  obtain ⟨k, h1, h2, h3, h4, h5, h6, h7, h8⟩ := c
  unfold Character.kill; cases k <;> rfl

theorem Character.kill_kind (c : Character) : c.kill.kind = c.kind := by
  obtain ⟨k, h1, h2, h3, h4, h5, h6, h7, h8⟩ := c
  unfold Character.kill; cases k <;> rfl

theorem Character.kill_rect (c : Character) : c.kill.rect = c.rect := by
  obtain ⟨k, h1, h2, h3, h4, h5, h6, h7, h8⟩ := c
  unfold Character.kill; cases k <;> rfl

theorem Character.damaged_hp (c : Character) : c.damaged.hp = c.hp := by
  obtain ⟨k, h1, h2, h3, h4, h5, h6, h7, h8⟩ := c
  unfold Character.damaged; cases k <;> rfl

theorem Character.damaged_invincible (c : Character) :
    c.damaged.invincible_tmr = c.invincible_tmr := by
  obtain ⟨k, h1, h2, h3, h4, h5, h6, h7, h8⟩ := c
  unfold Character.damaged; cases k <;> rfl

theorem Character.damaged_score (c : Character) : c.damaged.score = c.score := by
  obtain ⟨k, h1, h2, h3, h4, h5, h6, h7, h8⟩ := c
  unfold Character.damaged; cases k <;> rfl

theorem Character.damaged_kind (c : Character) : c.damaged.kind = c.kind := by
  obtain ⟨k, h1, h2, h3, h4, h5, h6, h7, h8⟩ := c
  unfold Character.damaged; cases k <;> rfl

theorem Character.damaged_rect (c : Character) : c.damaged.rect = c.rect := by
  obtain ⟨k, h1, h2, h3, h4, h5, h6, h7, h8⟩ := c
  unfold Character.damaged; cases k <;> rfl

theorem Character.give_damage_score (c : Character) (d : Int) :
    (c.give_damage d).score = c.score := by
  unfold Character.give_damage
  dsimp only
  split <;> split <;> simp [Character.kill_score, Character.damaged_score]

theorem Character.give_damage_kind (c : Character) (d : Int) :
    (c.give_damage d).kind = c.kind := by
  unfold Character.give_damage
  dsimp only
  split <;> split <;> simp [Character.kill_kind, Character.damaged_kind]

/-- While the invincibility timer is positive, `give_damage` leaves hp
unchanged (src line 117). -/
theorem Character.give_damage_hp_invincible (c : Character) (d : Int)
    (h : 0 < c.invincible_tmr) : (c.give_damage d).hp = c.hp := by
  have h2 : ¬ (c.invincible_tmr ≤ 0) := not_le.mpr h
  unfold Character.give_damage
  dsimp only
  rw [if_neg h2]
  split
  · exact Character.kill_hp c
  · rfl

/-- When vulnerable, `give_damage` subtracts the damage from hp. -/
theorem Character.give_damage_hp_vulnerable (c : Character) (d : Int)
    (h : c.invincible_tmr ≤ 0) : (c.give_damage d).hp = c.hp - d := by
  unfold Character.give_damage
  dsimp only
  rw [if_pos h]
  split
  · rw [Character.kill_hp, Character.damaged_hp]
  · rw [Character.damaged_hp]

/-- When vulnerable, `give_damage` resets the invincibility timer to the
maximum (src line 119). -/
theorem Character.give_damage_invincible_vulnerable (c : Character) (d : Int)
    (h : c.invincible_tmr ≤ 0) :
    (c.give_damage d).invincible_tmr = c.max_invincible_tick := by
  unfold Character.give_damage
  dsimp only
  rw [if_pos h]
  split
  · rw [Character.kill_invincible, Character.damaged_invincible]
  · rw [Character.damaged_invincible]

theorem Character.update_hp (c : Character) (dt : ℚ) : (c.update dt).hp = c.hp := by
  unfold Character.update
  dsimp only
  split
  · rfl
  · split
    · rfl
    · split
      · rfl
      · split <;> rfl

theorem Character.update_rect (c : Character) (dt : ℚ) :
    (c.update dt).rect = c.rect := by
  unfold Character.update
  dsimp only
  split
  · rfl
  · split
    · rfl
    · split
      · rfl
      · split <;> rfl

theorem Character.update_invincible (c : Character) (dt : ℚ) :
    (c.update dt).invincible_tmr = max (c.invincible_tmr - dt) (-1) := by
  unfold Character.update
  dsimp only
  split
  · rfl
  · split
    · rfl
    · split
      · rfl
      · split <;> rfl

theorem Rect.moveIp_cancel (r : Rect) (dx dy : ℚ) :
    (r.moveIp dx dy).moveIp (-dx) (-dy) = r := by
  simp [Rect.moveIp, ratTrunc_neg]

/-- C7: for every member of a camera-synchronized group, the stored world
position is bit-identical before and after `Group_support_camera.draw`: the
camera offset `entity_pos - camera_center + viewport_size/2` is applied
transiently (with pygame's truncation) and exactly undone before the call
returns, for every rational camera center. -/
theorem draw_restores_world_positions (cam : Camera) (rects : List Rect) :
    Group_support_camera.draw cam rects = rects := by
  have key : ∀ r : Rect,
      (r.moveIp (-cam.center_x + (cam.screen_w : ℚ) / 2)
        (-cam.center_y + (cam.screen_h : ℚ) / 2)).moveIp
        (cam.center_x - (cam.screen_w : ℚ) / 2)
        (cam.center_y - (cam.screen_h : ℚ) / 2) = r := by
    intro r
    have hx : cam.center_x - (cam.screen_w : ℚ) / 2
        = -(-cam.center_x + (cam.screen_w : ℚ) / 2) := by ring
    have hy : cam.center_y - (cam.screen_h : ℚ) / 2
        = -(-cam.center_y + (cam.screen_h : ℚ) / 2) := by ring
    rw [hx, hy, Rect.moveIp_cancel]
  unfold Group_support_camera.draw
  dsimp only
  induction rects with
  | nil => rfl
  | cons r rs ih => simp only [List.map_cons, ih, key]

/-- C5 (code defect): the player's bullet-aim computation (src lines
600-606) calls `calc_orientation` with no minimum-distance guard, unlike
the enemy and boss pursuit callers; whenever the mouse sits at the exact
viewport center (800, 450), the origin (the player rect center, which the
camera center equals at that point) and the destination of the call
coincide for every player position, so the divisor of `calc_orientation` is
zero and the call raises `ZeroDivisionError`. -/
theorem aim_call_zero_divisor (camera_center : Int × Int) :
    orientationNormSq ((camera_center.1 : ℚ), (camera_center.2 : ℚ))
      (aimDst (800, 450) camera_center) = 0 := by
  simp only [orientationNormSq, aimDst]
  ring

/-- C8: the frame decision of `main` transitions to GameOver exactly when
the player's hp is ≤ 0, and to GameClear exactly when hp > 0 and the
survival time has reached 60 s; in both terminal cases the per-group
simulation updates of the frame do not run (the source returns from `main`
before them, after one final player render and a fixed delay, both I/O). -/
theorem phase_machine (hp : Int) (suvivetime : ℚ) (gameFlag : Bool)
    (hflag : gameFlag = false) :
    ((phaseStep hp suvivetime gameFlag).1 = Phase.GameOver ↔ hp ≤ 0)
    ∧ ((phaseStep hp suvivetime gameFlag).1 = Phase.GameClear
        ↔ 0 < hp ∧ (60 : ℚ) ≤ suvivetime)
    ∧ ((phaseStep hp suvivetime gameFlag).1 ≠ Phase.Playing →
        (phaseStep hp suvivetime gameFlag).2 = false) := by
  subst hflag
  unfold phaseStep
  by_cases h1 : hp ≤ 0
  · simp [h1, not_lt.mpr h1]
  · by_cases h2 : 60 ≤ ratTrunc suvivetime
    · have h3 := (ratTrunc_ge_60_iff suvivetime).mp h2
      simp [h1, h2, h3, not_le.mp h1]
    · have h3 : ¬ (60 : ℚ) ≤ suvivetime :=
        fun hc => h2 ((ratTrunc_ge_60_iff suvivetime).mpr hc)
      simp [h1, h2, h3]

/-- Witness for `phase_machine`: with hp 1 and survival time exactly 60 s
the frame transitions to GameClear. -/
theorem phase_machine_witness :
    (phaseStep 1 60 false).1 = Phase.GameClear :=
  ((phase_machine 1 60 false rfl).2.1).mpr (by norm_num)

/-- C4: `give_damage` is a no-op on hp while the invincibility timer is
positive; otherwise it subtracts the damage and resets the timer to the
maximum invincibility duration; consequently two damage applications
separated by less than the invincibility window reduce hp exactly once. -/
theorem give_damage_invincibility_window (c : Character) (d1 d2 : Int)
    (dtime : ℚ) :
    (0 < c.invincible_tmr → (c.give_damage d1).hp = c.hp)
    ∧ (c.invincible_tmr ≤ 0 → (c.give_damage d1).hp = c.hp - d1
        ∧ (c.give_damage d1).invincible_tmr = c.max_invincible_tick)
    ∧ (c.invincible_tmr ≤ 0 → 0 ≤ dtime → dtime < c.max_invincible_tick →
        (((c.give_damage d1).update dtime).give_damage d2).hp = c.hp - d1) := by
  refine ⟨fun h => Character.give_damage_hp_invincible c d1 h,
    fun h => ⟨Character.give_damage_hp_vulnerable c d1 h,
      Character.give_damage_invincible_vulnerable c d1 h⟩, ?_⟩
  intro h hdt hlt
  have htmr : (c.give_damage d1).invincible_tmr = c.max_invincible_tick :=
    Character.give_damage_invincible_vulnerable c d1 h
  have h2 : 0 < ((c.give_damage d1).update dtime).invincible_tmr := by
    rw [Character.update_invincible, htmr]
    have h3 : 0 < c.max_invincible_tick - dtime := by linarith
    calc (0 : ℚ) < c.max_invincible_tick - dtime := h3
    _ ≤ max (c.max_invincible_tick - dtime) (-1) := le_max_left _ _
  rw [Character.give_damage_hp_invincible _ d2 h2, Character.update_hp,
      Character.give_damage_hp_vulnerable c d1 h]

/-- Witness for `give_damage_invincibility_window`: the spec scenario —
hp 50, 2 s invincibility window, two `give_damage 10` calls separated by a
1 s tick — leaves hp at 40: the second call is a no-op. -/
theorem give_damage_invincibility_window_witness :
    (((wPlayer.give_damage 10).update 1).give_damage 10).hp = 50 - 10 :=
  (give_damage_invincibility_window wPlayer 10 10 1).2.2
    (by decide) (by decide) (by decide)

/-- C10: when the boss's rect center is within 50 units of its target's
center, `BOSS.update` leaves the boss's position unchanged, adds no bullet
to the enemy-bullet group, and does not advance the attack-interval timer,
for every possible value of the orientation oracle. -/
theorem boss_proximity_guard (orient : (Int × Int) → (Int × Int) → ℚ × ℚ)
    (boss : BOSS) (attack_target : Character)
    (enemy_bullet_group : List Bullet) (delta_time : ℚ)
    (hnear : calcNormSq (boss.ch.update delta_time).rect attack_target.rect
        < 2500) :
    ((BOSS.update orient boss attack_target enemy_bullet_group
        delta_time).1.ch.rect = boss.ch.rect)
    ∧ ((BOSS.update orient boss attack_target enemy_bullet_group
        delta_time).2 = enemy_bullet_group)
    ∧ ((BOSS.update orient boss attack_target enemy_bullet_group
        delta_time).1.attack_interval_tmr = boss.attack_interval_tmr) := by
  unfold BOSS.update
  dsimp only
  rw [if_pos hnear]
  exact ⟨Character.update_rect boss.ch delta_time, rfl, rfl⟩

/-- Witness for `boss_proximity_guard`: a boss co-located with its target
(center distance 0) with a warm attack timer (1.5 s > 1 s interval) fires
no bullet during the tick. -/
theorem boss_proximity_guard_witness :
    (BOSS.update wOrient wBoss wPlayer [] 1).2 = [] :=
  (boss_proximity_guard wOrient wBoss wPlayer [] 1 (by decide)).2.1

theorem bullet_update_nil_life (b : Bullet) (dt : ℚ) :
    ∀ sc : Int, ((b.update dt [] sc).1).life_tmr = b.life_tmr + dt := by
  intro sc
  unfold Bullet.update
  simp only [List.any_nil, Bool.false_eq_true, if_false]
  split <;> rfl

theorem bullet_update_nil_max (b : Bullet) (dt : ℚ) :
    ∀ sc : Int, ((b.update dt [] sc).1).max_life_sec = b.max_life_sec := by
  intro sc
  unfold Bullet.update
  simp only [List.any_nil, Bool.false_eq_true, if_false]
  split <;> rfl

theorem bullet_update_nil_alive (b : Bullet) (dt : ℚ) :
    ∀ sc : Int, ((b.update dt [] sc).1).alive
      = if b.life_tmr > b.max_life_sec then false else b.alive := by
  intro sc
  unfold Bullet.update
  simp only [List.any_nil, Bool.false_eq_true, if_false]
  by_cases h : b.life_tmr > b.max_life_sec
  · rw [if_pos h, if_pos h]
  · rw [if_neg h, if_neg h]

theorem bulletTicks_succ_outer (b : Bullet) (dt : ℚ) (n : Nat) :
    bulletTicks b dt (n + 1) = ((bulletTicks b dt n).update dt [] 0).1 := by
  induction n generalizing b with
  | zero => rfl
  | succ n ih =>
    show bulletTicks ((b.update dt [] 0).1) dt (n + 1) = _
    rw [ih]
    rfl

theorem bulletTicks_life (b : Bullet) (dt : ℚ) (n : Nat) :
    (bulletTicks b dt n).life_tmr = b.life_tmr + n * dt := by
  induction n with
  | zero => simp [bulletTicks]
  | succ n ih =>
    rw [bulletTicks_succ_outer, bullet_update_nil_life _ _ 0, ih]
    push_cast
    ring

theorem bulletTicks_max (b : Bullet) (dt : ℚ) (n : Nat) :
    (bulletTicks b dt n).max_life_sec = b.max_life_sec := by
  induction n with
  | zero => rfl
  | succ n ih => rw [bulletTicks_succ_outer, bullet_update_nil_max _ _ 0, ih]

theorem bulletTicks_alive (b : Bullet) (dt : ℚ) (n : Nat) (hb : b.alive = true)
    (h : ∀ k : Nat, k < n → b.life_tmr + k * dt ≤ b.max_life_sec) :
    (bulletTicks b dt n).alive = true := by
  induction n with
  | zero => exact hb
  | succ n ih =>
    rw [bulletTicks_succ_outer, bullet_update_nil_alive _ _ 0]
    have h1 : (bulletTicks b dt n).life_tmr ≤ (bulletTicks b dt n).max_life_sec := by
      rw [bulletTicks_life, bulletTicks_max]
      exact h n (Nat.lt_succ_self n)
    rw [if_neg (not_lt.mpr h1)]
    exact ih (fun k hk => h k (Nat.lt_succ_of_lt hk))

/-- C9: in the very tick in which a projectile's age exceeds its lifespan
and it kills itself (src line 290, the first conjunct), the collision pass
still executes: an overlapping vulnerable target is damaged and the bullet
is destroyed (again), and when the hit drives a score-bearing target to
hp ≤ 0 the score is still raised before the bullet disappears. -/
theorem expired_bullet_still_hits (b : Bullet) (t : Character) (dtime : ℚ)
    (s : Int)
    (hexp : b.life_tmr > b.max_life_sec)
    (halive : t.alive = true)
    (hcol : collideRect (b.movedRect dtime) t.rect = true)
    (hvul : t.invincible_tmr ≤ 0) :
    ((b.update dtime [] s).1.alive = false)
    ∧ ((b.update dtime [t] s).1.alive = false)
    ∧ ((b.update dtime [t] s).2.1.map Character.hp = [t.hp - b.damage])
    ∧ (isEnemyBase t.kind = true → t.hp - b.damage ≤ 0 →
        (b.update dtime [t] s).2.2 = s + t.score) := by
  have hc : (t.alive && collideRect (b.movedRect dtime) t.rect) = true := by
    rw [halive, hcol]; rfl
  have hhp : (t.give_damage b.damage).hp = t.hp - b.damage :=
    Character.give_damage_hp_vulnerable t b.damage hvul
  refine ⟨?_, ?_, ?_, ?_⟩
  · rw [bullet_update_nil_alive _ _ s, if_pos hexp]
  · unfold Bullet.update
    dsimp only
    rw [if_pos (by simp [hc])]
  · unfold Bullet.update
    dsimp only
    simp [applyHits, hc, hhp]
  · intro hkind hdead
    unfold Bullet.update
    dsimp only
    simp only [applyHits, hc, if_true]
    have hcase : ((t.give_damage b.damage).hp ≤ 0
        ∧ isEnemyBase (t.give_damage b.damage).kind = true) := by
      rw [hhp, Character.give_damage_kind]
      exact ⟨hdead, hkind⟩
    simp [hcase, Character.give_damage_score]

/-- Witness for `expired_bullet_still_hits`: an expired bullet (age 5.1 s,
lifespan 5 s) overlapping an enemy at hp 5 still kills it and awards its
score value 30. -/
theorem expired_bullet_still_hits_witness :
    (wExpiredBullet.update (1/10) [wDyingEnemy] 0).2.2 = 0 + wDyingEnemy.score :=
  (expired_bullet_still_hits wExpiredBullet wDyingEnemy (1/10) 0
    (by norm_num [wExpiredBullet]) rfl
    (by norm_num [collideRect, wExpiredBullet, wDyingEnemy, Bullet.movedRect,
      Rect.moveIp, ratTrunc])
    (by norm_num [wDyingEnemy])).2.2.2 rfl (by decide)

theorem applyHits_fst (br : Rect) (dmg : Int) (ts : List Character) (s : Int) :
    (applyHits br dmg ts s).1
      = ts.map (fun t => if t.alive && collideRect br t.rect
          then t.give_damage dmg else t) := by
  induction ts generalizing s with
  | nil => rfl
  | cons t ts ih =>
    unfold applyHits
    dsimp only
    by_cases h : (t.alive && collideRect br t.rect) = true
    · have h2 : t.alive = true ∧ collideRect br t.rect = true := by simpa using h
      simp [h, h2, ih]
    · have h2 : ¬ (t.alive = true ∧ collideRect br t.rect = true) := by
        simpa using h
      simp [h, h2, ih]

/-- C1 counterexample: a single bullet overlapping two enemies at the same
time damages both of them in one `Bullet.update` call — each drops from
hp 20 to hp 10 — contradicting that only the first overlapping target of
the pass receives damage. -/
theorem bullet_damages_two_targets_cx :
    collideRect (cxBullet.movedRect (1/10)) cxEnemyA.rect = true
    ∧ collideRect (cxBullet.movedRect (1/10)) cxEnemyB.rect = true
    ∧ cxEnemyA.hp = 20 ∧ cxEnemyB.hp = 20
    ∧ ((cxBullet.update (1/10) [cxEnemyA, cxEnemyB] 0).2.1.map Character.hp
        = [10, 10])
    ∧ ((cxBullet.update (1/10) [cxEnemyA, cxEnemyB] 0).1.alive = false) := by
  norm_num [Bullet.update, applyHits, cxBullet, cxEnemyA, cxEnemyB, mkBullet,
    Bullet.movedRect, Rect.moveIp, Rect.setCenter, collideRect, ratTrunc,
    Character.give_damage, Character.damaged, Character.kill,
    Character.set_image, setImg, isEnemyBase]

/-- C1 (amended): on a collision tick the projectile is destroyed, and
every member of the target group that overlaps the moved projectile — not
only the first in iteration order — receives `give_damage(damage)` in the
same pass. -/
theorem bullet_damages_every_overlap (b : Bullet) (dtime : ℚ)
    (ts : List Character) (s : Int) :
    ((b.update dtime ts s).2.1
      = ts.map (fun t => if t.alive && collideRect (b.movedRect dtime) t.rect
          then t.give_damage b.damage else t))
    ∧ ((ts.any fun t => t.alive && collideRect (b.movedRect dtime) t.rect)
          = true →
        (b.update dtime ts s).1.alive = false) := by
  constructor
  · unfold Bullet.update
    dsimp only
    exact applyHits_fst _ _ _ _
  · intro h
    unfold Bullet.update
    dsimp only
    rw [if_pos h]

/-- Witness for `bullet_damages_every_overlap`: the two-enemy overlap run
destroys the bullet. -/
theorem bullet_damages_every_overlap_witness :
    (cxBullet.update (1/10) [cxEnemyA, cxEnemyB] 0).1.alive = false :=
  (bullet_damages_every_overlap cxBullet (1/10) [cxEnemyA, cxEnemyB] 0).2
    (by norm_num [cxBullet, cxEnemyA, cxEnemyB, mkBullet, Bullet.movedRect,
      Rect.moveIp, Rect.setCenter, collideRect, ratTrunc])

/-- C3 counterexample: with dt = 0.1 the scenario projectile is still alive
after 51 ticks (its age is then 5.1 s) and is first destroyed on tick 52,
because a tick's expiry check compares the age accumulated by the previous
ticks; the claim asserts destruction by tick 51. -/
theorem bullet_survives_tick_51_cx :
    (bulletTicks spawnBullet (1/10) 51).alive = true
    ∧ (bulletTicks spawnBullet (1/10) 51).life_tmr = 51/10
    ∧ (bulletTicks spawnBullet (1/10) 52).alive = false := by
  have hlife : (bulletTicks spawnBullet (1/10) 51).life_tmr = 51/10 := by
    rw [bulletTicks_life]
    norm_num [spawnBullet, mkBullet]
  refine ⟨?_, hlife, ?_⟩
  · apply bulletTicks_alive _ _ _ rfl
    intro k hk
    have hk50 : (k : ℚ) ≤ 50 := by exact_mod_cast Nat.lt_succ_iff.mp hk
    have h0 : spawnBullet.life_tmr = 0 := rfl
    have h5 : spawnBullet.max_life_sec = 5 := rfl
    rw [h0, h5]
    linarith
  · rw [show (52 : Nat) = 51 + 1 from rfl, bulletTicks_succ_outer,
        bullet_update_nil_alive _ _ 0, hlife, bulletTicks_max]
    rw [if_pos (by norm_num [spawnBullet, mkBullet])]

/-- C3 (amended): each tick moves the rect by the (truncated) velocity · dt
offset and increments the age by exactly dt; a projectile whose age already
exceeds its max lifespan is killed on that next tick regardless of
collisions; the dt = 0.1, lifespan 5 s scenario projectile survives tick 51
(total age 5.1 s) and is destroyed on tick 52. -/
theorem bullet_lifecycle (b : Bullet) (dtime : ℚ) (ts : List Character)
    (s : Int) :
    ((b.update dtime ts s).1.life_tmr = b.life_tmr + dtime)
    ∧ ((b.update dtime ts s).1.rect = b.movedRect dtime)
    ∧ (b.life_tmr > b.max_life_sec → (b.update dtime ts s).1.alive = false)
    ∧ (bulletTicks spawnBullet (1/10) 51).alive = true
    ∧ (bulletTicks spawnBullet (1/10) 52).alive = false := by
  have hlife : (bulletTicks spawnBullet (1/10) 51).life_tmr = 51/10 := by
    rw [bulletTicks_life]
    norm_num [spawnBullet, mkBullet]
  have h51 : (bulletTicks spawnBullet (1/10) 51).alive = true := by
    apply bulletTicks_alive _ _ _ rfl
    intro k hk
    have hk50 : (k : ℚ) ≤ 50 := by exact_mod_cast Nat.lt_succ_iff.mp hk
    have h0 : spawnBullet.life_tmr = 0 := rfl
    have h5 : spawnBullet.max_life_sec = 5 := rfl
    rw [h0, h5]
    linarith
  have h52 : (bulletTicks spawnBullet (1/10) 52).alive = false := by
    rw [show (52 : Nat) = 51 + 1 from rfl, bulletTicks_succ_outer,
        bullet_update_nil_alive _ _ 0, hlife, bulletTicks_max]
    rw [if_pos (by norm_num [spawnBullet, mkBullet])]
  refine ⟨?_, ?_, ?_, h51, h52⟩
  · unfold Bullet.update
    dsimp only
    split <;> split <;> rfl
  · unfold Bullet.update
    dsimp only
    split <;> split <;> rfl
  · intro h
    unfold Bullet.update
    dsimp only
    rw [if_pos h]
    split <;> rfl

/-- Witness for `bullet_lifecycle`: the expired bullet is dead after the
next tick even with no collision targets. -/
theorem bullet_lifecycle_witness :
    (wExpiredBullet.update (1/10) [] 0).1.alive = false :=
  (bullet_lifecycle wExpiredBullet (1/10) [] 0).2.2.1
    (by norm_num [wExpiredBullet])

theorem lookupImg_mem (l : List ImgEntry) (p : Int) (e : ImgEntry)
    (h : lookupImg l p = some e) : e ∈ l ∧ e.priority = p := by
  unfold lookupImg at h
  refine ⟨List.mem_of_find?_eq_some h, ?_⟩
  have h2 := List.find?_some h
  simpa using h2

theorem Character.update_image_top (c : Character) (dt : ℚ) (p : Int)
    (e : ImgEntry) (htop : topPriority c.imgs = some p)
    (hlook : lookupImg c.imgs p = some e) :
    (c.update dt).image = e.img := by
  unfold Character.update
  dsimp only
  rw [htop]
  dsimp only
  rw [hlook]
  dsimp only
  split
  · rfl
  · split <;> rfl

theorem Character.update_imgs_none (c : Character) (dt : ℚ) (p : Int)
    (e : ImgEntry) (htop : topPriority c.imgs = some p)
    (hlook : lookupImg c.imgs p = some e) (hvt : e.valid_time = none) :
    (c.update dt).imgs = c.imgs := by
  unfold Character.update
  dsimp only
  rw [htop]
  dsimp only
  rw [hlook]
  dsimp only
  rw [hvt]

theorem Character.update_imgs_del (c : Character) (dt : ℚ) (p : Int)
    (e : ImgEntry) (htop : topPriority c.imgs = some p)
    (hlook : lookupImg c.imgs p = some e) (t : ℚ)
    (hvt : e.valid_time = some t) (hneg : t < 0) :
    (c.update dt).imgs = c.imgs.filter (fun x => !(x.priority == p)) := by
  unfold Character.update
  dsimp only
  rw [htop]
  dsimp only
  rw [hlook]
  dsimp only
  rw [hvt]
  dsimp only
  rw [if_pos hneg]

theorem Character.update_imgs_dec (c : Character) (dt : ℚ) (p : Int)
    (e : ImgEntry) (htop : topPriority c.imgs = some p)
    (hlook : lookupImg c.imgs p = some e) (t : ℚ)
    (hvt : e.valid_time = some t) (hneg : ¬ t < 0) :
    (c.update dt).imgs = c.imgs.map (fun x =>
      if x.priority == p then { x with valid_time := some (t - dt) } else x) := by
  unfold Character.update
  dsimp only
  rw [htop]
  dsimp only
  rw [hlook]
  dsimp only
  rw [hvt]
  dsimp only
  rw [if_neg hneg]

/-- C2 counterexample: after one tick of a character with two finite
layers (both at 5 s), only the top layer's duration is decremented
(5 → 4) while the priority-0 layer keeps duration 5; and a character whose
single layer has exactly 0 s remaining (an elapsed duration) is not
evicted: the layer is decremented to -1 and its image is still displayed. -/
theorem character_update_skips_lower_layers_cx :
    (cxChar.update 1).imgs = [⟨0, 1, some 5⟩, ⟨1, 2, some 4⟩]
    ∧ (cxChar0.update 1).imgs = [⟨0, 1, some (-1)⟩]
    ∧ (cxChar0.update 1).image = 1 := by
  refine ⟨?_, ?_, ?_⟩ <;>
    norm_num [Character.update, cxChar, cxChar0, topPriority, lookupImg]

/-- C2 (amended): `Character.update` decrements the invincibility timer by
dt, floored at -1; the displayed image becomes that of the
highest-priority layer; and only that top layer's duration is handled —
when finite and already negative the layer is evicted (its image still the
one displayed this tick), when finite and nonnegative it is decremented by
dt — while every other layer, finite-duration or not, is left untouched. -/
theorem character_update_top_layer (c : Character) (delta_time : ℚ) (p : Int)
    (e : ImgEntry) (htop : topPriority c.imgs = some p)
    (hlook : lookupImg c.imgs p = some e) :
    ((c.update delta_time).invincible_tmr
        = max (c.invincible_tmr - delta_time) (-1))
    ∧ (-1 ≤ (c.update delta_time).invincible_tmr)
    ∧ ((c.update delta_time).image = e.img)
    ∧ (∀ e2 ∈ c.imgs, e2.priority ≠ p → e2 ∈ (c.update delta_time).imgs)
    ∧ (∀ t, e.valid_time = some t → t < 0 →
        ∀ e2 ∈ (c.update delta_time).imgs, e2.priority ≠ p)
    ∧ (∀ t, e.valid_time = some t → ¬ t < 0 →
        { e with valid_time := some (t - delta_time) }
          ∈ (c.update delta_time).imgs)
    ∧ (e.valid_time = none → (c.update delta_time).imgs = c.imgs) := by
  obtain ⟨he, hep⟩ := lookupImg_mem c.imgs p e hlook
  refine ⟨Character.update_invincible c delta_time, ?_,
    Character.update_image_top c delta_time p e htop hlook, ?_, ?_, ?_,
    Character.update_imgs_none c delta_time p e htop hlook⟩
  · rw [Character.update_invincible]
    exact le_max_right _ _
  · intro e2 he2 hne
    rcases hvt : e.valid_time with _ | t
    · rw [Character.update_imgs_none c delta_time p e htop hlook hvt]
      exact he2
    · by_cases hneg : t < 0
      · rw [Character.update_imgs_del c delta_time p e htop hlook t hvt hneg]
        refine List.mem_filter.mpr ⟨he2, ?_⟩
        simp [hne]
      · rw [Character.update_imgs_dec c delta_time p e htop hlook t hvt hneg]
        refine List.mem_map.mpr ⟨e2, he2, ?_⟩
        simp [hne]
  · intro t hvt hneg e2 he2
    rw [Character.update_imgs_del c delta_time p e htop hlook t hvt hneg] at he2
    have h3 := (List.mem_filter.mp he2).2
    simpa using h3
  · intro t hvt hneg
    rw [Character.update_imgs_dec c delta_time p e htop hlook t hvt hneg]
    refine List.mem_map.mpr ⟨e, he, ?_⟩
    simp [hep]

/-- Witness for `character_update_top_layer`: the two-layer character
displays the top layer's image (id 2) after the tick. -/
theorem character_update_top_layer_witness :
    (cxChar.update 1).image = 2 :=
  (character_update_top_layer cxChar 1 1 ⟨1, 2, some 5⟩
    (by decide) (by decide)).2.2.1

theorem applyHits_snd (br : Rect) (dmg : Int) (ts : List Character) :
    ∀ s : Int, (applyHits br dmg ts s).2
      = s + ((crossedTargets br dmg ts).map Character.score).sum := by
  induction ts with
  | nil => intro s; simp [applyHits, crossedTargets]
  | cons t ts ih =>
    intro s
    unfold applyHits crossedTargets
    dsimp only
    by_cases h1 : (t.alive && collideRect br t.rect) = true
    · rw [if_pos h1]
      by_cases h2 : ((t.give_damage dmg).hp ≤ 0
          ∧ isEnemyBase (t.give_damage dmg).kind = true)
      · rw [if_pos h2]
        have hk : isEnemyBase t.kind = true := by
          rw [← Character.give_damage_kind t dmg]
          exact h2.2
        have ha : t.alive = true ∧ collideRect br t.rect = true := by
          simpa using h1
        have hpred : (t.alive && collideRect br t.rect && isEnemyBase t.kind
            && decide ((t.give_damage dmg).hp ≤ 0)) = true := by
          simp [ha.1, ha.2, hk, h2.1]
        rw [List.filter_cons, if_pos hpred]
        have ihs := ih (s + (t.give_damage dmg).score)
        unfold crossedTargets at ihs
        rw [ihs, Character.give_damage_score, List.map_cons, List.sum_cons]
        ring
      · rw [if_neg h2]
        have hpred : ¬ (t.alive && collideRect br t.rect && isEnemyBase t.kind
            && decide ((t.give_damage dmg).hp ≤ 0)) = true := by
          intro hp
          simp only [Bool.and_eq_true, decide_eq_true_eq] at hp
          refine h2 ⟨hp.2, ?_⟩
          rw [Character.give_damage_kind]
          exact hp.1.2
        rw [List.filter_cons, if_neg hpred]
        have ihs := ih s
        unfold crossedTargets at ihs
        rw [ihs]
    · rw [if_neg h1]
      have hpred : ¬ (t.alive && collideRect br t.rect && isEnemyBase t.kind
          && decide ((t.give_damage dmg).hp ≤ 0)) = true := by
        intro hp
        simp only [Bool.and_eq_true, decide_eq_true_eq] at hp
        exact h1 (by simp [hp.1.1.1, hp.1.1.2])
      rw [List.filter_cons, if_neg hpred]
      have ihs := ih s
      unfold crossedTargets at ihs
      rw [ihs]

theorem bossCollisionPass_snd (bs : List Character)
    (hbsc : ∀ bch ∈ bs, bch.score = 40) :
    ∀ s : Int, (bossCollisionPass bs s).2
      = s + ((bs.filter (fun bch =>
          decide ((bch.give_damage 10).hp ≤ 0))).map Character.score).sum := by
  induction bs with
  | nil => intro s; simp [bossCollisionPass]
  | cons bch bs ih =>
    intro s
    have hb40 : bch.score = 40 := hbsc bch (List.mem_cons_self bch bs)
    have ih2 := ih (fun x hx => hbsc x (List.mem_cons_of_mem bch hx))
    unfold bossCollisionPass
    dsimp only
    by_cases h : (bch.give_damage 10).hp ≤ 0
    · rw [if_pos h, List.filter_cons, if_pos (by simpa using h)]
      rw [ih2, List.map_cons, List.sum_cons, hb40]
      ring
    · rw [if_neg h, List.filter_cons, if_neg (by simpa using h)]
      exact ih2 s

/-- C6: in the two passes where the source raises the score — the bullet
collision pass (src lines 294-301) and the boss-vs-player-bullet pass
(src lines 543-547, the only other `score_up` call site) — the score never
decreases, and each pass adds exactly the sum of the `score_value`s of the
targets whose hp the pass drives from above 0 to ≤ 0 (given that live
score-bearing targets have positive hp and nonnegative score values, and
that every boss carries the score value 40 the source hardcodes there). -/
theorem score_monotone_and_exact (br : Rect) (dmg : Int) (ts : List Character)
    (s : Int) (hitBosses : List Character) (s2 : Int)
    (hsc : ∀ t ∈ ts, 0 ≤ t.score)
    (hpos : ∀ t ∈ ts, t.alive = true → isEnemyBase t.kind = true → 0 < t.hp)
    (hbsc : ∀ bch ∈ hitBosses, bch.score = 40)
    (hbpos : ∀ bch ∈ hitBosses, 0 < bch.hp) :
    (s ≤ (applyHits br dmg ts s).2)
    ∧ ((applyHits br dmg ts s).2
        = s + ((crossedTargets br dmg ts).map Character.score).sum)
    ∧ (∀ t ∈ crossedTargets br dmg ts,
        0 < t.hp ∧ (t.give_damage dmg).hp ≤ 0 ∧ isEnemyBase t.kind = true)
    ∧ (s2 ≤ (bossCollisionPass hitBosses s2).2)
    ∧ ((bossCollisionPass hitBosses s2).2
        = s2 + ((hitBosses.filter (fun bch =>
            decide ((bch.give_damage 10).hp ≤ 0))).map Character.score).sum)
    ∧ (∀ bch ∈ hitBosses.filter (fun bch =>
          decide ((bch.give_damage 10).hp ≤ 0)),
        0 < bch.hp ∧ (bch.give_damage 10).hp ≤ 0) := by
  have heq := applyHits_snd br dmg ts s
  have hbeq := bossCollisionPass_snd hitBosses hbsc s2
  have hcross : ∀ t ∈ crossedTargets br dmg ts,
      0 < t.hp ∧ (t.give_damage dmg).hp ≤ 0 ∧ isEnemyBase t.kind = true := by
    intro t ht
    have hmem := List.mem_filter.mp ht
    have hf := hmem.2
    simp only [Bool.and_eq_true, decide_eq_true_eq] at hf
    exact ⟨hpos t hmem.1 hf.1.1.1 hf.1.2, hf.2, hf.1.2⟩
  refine ⟨?_, heq, hcross, ?_, hbeq, ?_⟩
  · rw [heq]
    have hnn : 0 ≤ ((crossedTargets br dmg ts).map Character.score).sum := by
      apply List.sum_nonneg
      intro x hx
      obtain ⟨t, ht, rfl⟩ := List.mem_map.mp hx
      exact hsc t (List.mem_filter.mp ht).1
    omega
  · rw [hbeq]
    have hnn : 0 ≤ ((hitBosses.filter (fun bch =>
        decide ((bch.give_damage 10).hp ≤ 0))).map Character.score).sum := by
      apply List.sum_nonneg
      intro x hx
      obtain ⟨bch, hb, rfl⟩ := List.mem_map.mp hx
      rw [hbsc bch (List.mem_filter.mp hb).1]
      norm_num
    omega
  · intro bch hb
    have hmem := List.mem_filter.mp hb
    have hf := hmem.2
    simp only [decide_eq_true_eq] at hf
    exact ⟨hbpos bch hmem.1, hf⟩

/-- Witness for `score_monotone_and_exact`: one enemy at hp 10 overlapping
the bullet rect and one collided boss at hp 10; the bullet pass raises the
score by exactly the crossed-targets sum. -/
theorem score_monotone_and_exact_witness :
    (applyHits ⟨-10, -5, 20, 10⟩ 10 [wCrossEnemy] 0).2
      = 0 + ((crossedTargets ⟨-10, -5, 20, 10⟩ 10 [wCrossEnemy]).map
          Character.score).sum :=
  (score_monotone_and_exact ⟨-10, -5, 20, 10⟩ 10 [wCrossEnemy] 0 [wHitBoss] 0
    (by decide) (by decide) (by decide) (by decide)).2.1

end Survive
